import Mathlib

/-!
Shallow embedding of the WakeSync-Mini alarm clock controller
(src/version_01.ino): persisted settings with checksum, the trigger
state machine, the snooze/stop/set request handlers, the warbling
sound pattern generator, and the OLED presenter.  Machine integers
are modelled as Nat/Int with explicit reduction modulo 2^32 where
the C code's uint32_t arithmetic wraps.
-/

namespace WakeSync

/-- The persisted `AlarmSettings` struct: five uint8_t fields and a
uint32_t checksum.  Field values are Nats; byte-ness is assumed only
where a theorem needs it. -/
structure AlarmSettings where
  enabled : Nat
  hour12 : Nat
  minute : Nat
  am : Nat
  snoozeMin : Nat
  crc : Nat
  deriving Repr, DecidableEq

/-- `simpleCRC`: sum of the five byte fields, multiplied by 2654435761
modulo 2^32 (uint32_t wrap), xor 0xA5A5A5A5. -/
def simpleCRC (s : AlarmSettings) : Nat :=
  let sum := s.enabled + s.hour12 + s.minute + s.am + s.snoozeMin
  ((sum * 2654435761) % 2 ^ 32) ^^^ 0xA5A5A5A5

/-- The hard-coded default record written by `loadSettings` on a bad
record: disabled, 7:00 AM, 5-minute snooze, with freshly computed crc. -/
def defaultSettings : AlarmSettings :=
  let base : AlarmSettings :=
    { enabled := 0, hour12 := 7, minute := 0, am := 1, snoozeMin := 5, crc := 0 }
  { base with crc := simpleCRC base }

/-- `loadSettings`: reads the stored record; on a range violation of
hour12/minute/am/snoozeMin, or a checksum mismatch, replaces it by
`defaultSettings` and re-persists.  Returns (in-memory cfg, EEPROM
content after the call). -/
def loadSettings (stored : AlarmSettings) : AlarmSettings × AlarmSettings :=
  if stored.hour12 < 1 ∨ stored.hour12 > 12 ∨ stored.minute > 59 ∨
      (stored.am ≠ 0 ∧ stored.am ≠ 1) ∨ stored.snoozeMin < 1 ∨ stored.snoozeMin > 30 then
    (defaultSettings, defaultSettings)
  else if stored.crc ≠ simpleCRC stored then
    (defaultSettings, defaultSettings)
  else
    (stored, stored)

/-- `saveSettings`: recompute the crc over the current fields and write
the record to EEPROM.  Returns (in-memory cfg, EEPROM content). -/
def saveSettings (cfg : AlarmSettings) : AlarmSettings × AlarmSettings :=
  let c := { cfg with crc := simpleCRC cfg }
  (c, c)

/-- Volatile trigger state: `alarmRinging`, `lastTriggerKey` (int, -1 =
none), `snoozeUntil` (time_t epoch, 0 = not snoozing). -/
structure TriggerState where
  alarmRinging : Bool
  lastTriggerKey : Int
  snoozeUntil : Nat
  deriving Repr, DecidableEq

/-- Volatile sound state: the `lastToneStepMs`, `toneFreq`, `toneDir`
globals plus the `static patternMs` local of `alarmSoundUpdate`. -/
structure SoundState where
  lastToneStepMs : Nat
  toneFreq : Int
  toneDir : Int
  patternMs : Nat
  deriving Repr, DecidableEq

/-- One instant of wall-clock input: the epoch value `time(nullptr)`
together with the `struct tm` fields of `localtime` the code reads. -/
structure Instant where
  epoch : Nat
  hour : Nat
  min : Nat
  sec : Nat
  yday : Nat
  deriving Repr, DecidableEq

/-- `timeSynced()`: the epoch exceeds the fixed recent-enough guard. -/
def timeSynced (now : Nat) : Bool :=
  1700000000 < now

/-- `alarmHour24()`: 12h + AM/PM to 24h (AM 12 -> 0, PM 12 -> 12,
PM 1..11 -> +12). -/
def alarmHour24 (cfg : AlarmSettings) : Nat :=
  if cfg.am = 1 then
    if cfg.hour12 = 12 then 0 else cfg.hour12
  else
    if cfg.hour12 = 12 then 12 else cfg.hour12 + 12

/-- `to12h`: 24h hour to (12h hour, isAM). -/
def to12h (h24 : Nat) : Nat × Bool :=
  let h := h24 % 12
  (if h = 0 then 12 else h, decide (h24 < 12))

/-- The per-minute guard key `ti->tm_yday*24*60 + ti->tm_hour*60 +
ti->tm_min`, as the Int it is compared with. -/
def minuteKey (yday hour min : Nat) : Int :=
  (yday * 24 * 60 + hour * 60 + min : Nat)

/-- `updateAlarmLogic()`: one trigger-engine tick.  Disabled or
unsynced: no change.  Active snooze has priority: on expiry set
ringing, clear snoozeUntil and the guard key (sound state untouched).
Otherwise fire at the exact configured minute's second 0 when not
already ringing and the minute key differs from `lastTriggerKey`,
resetting the sound sweep. -/
def updateAlarmLogic (cfg : AlarmSettings) (t : TriggerState) (snd : SoundState)
    (i : Instant) : TriggerState × SoundState :=
  if cfg.enabled = 0 then (t, snd)
  else if timeSynced i.epoch = false then (t, snd)
  else if t.snoozeUntil > 0 then
    if t.snoozeUntil ≤ i.epoch then
      ({ t with snoozeUntil := 0, alarmRinging := true, lastTriggerKey := -1 }, snd)
    else (t, snd)
  else if i.hour = alarmHour24 cfg ∧ i.min = cfg.minute ∧ i.sec = 0 ∧
      t.alarmRinging = false then
    let key := minuteKey i.yday i.hour i.min
    if key ≠ t.lastTriggerKey then
      ({ t with lastTriggerKey := key, alarmRinging := true },
       { snd with toneFreq := 1200, toneDir := 1, lastToneStepMs := 0 })
    else (t, snd)
  else (t, snd)

/-- `handleStop()`: unconditionally clear ringing, snoozeUntil and the
guard key, and silence the buzzer. -/
def handleStop (_t : TriggerState) : TriggerState × Option Int :=
  ({ alarmRinging := false, lastTriggerKey := -1, snoozeUntil := 0 }, none)

/-- `handleSnooze()`: only when currently ringing and time synced set
`snoozeUntil = now + snoozeMin*60`; then unconditionally clear ringing,
silence the buzzer and clear the guard key. -/
def handleSnooze (cfg : AlarmSettings) (t : TriggerState) (now : Nat) :
    TriggerState × Option Int :=
  let su := if t.alarmRinging && timeSynced now then now + cfg.snoozeMin * 60
            else t.snoozeUntil
  ({ alarmRinging := false, lastTriggerKey := -1, snoozeUntil := su }, none)

/-- Outcome of the `/set` handler: 400 Missing fields, 400 Invalid
values, or the 303 redirect after saving. -/
inductive SetOutcome where
  | missingFields
  | invalidValues
  | saved
  deriving Repr, DecidableEq

/-- An inbound `/set` request: the four form arguments (absent when the
corresponding `server.hasArg` is false; numeric ones already through
`toInt`) and the `en` checkbox flag. -/
structure SetRequest where
  h : Option Int
  m : Option Int
  ap : Option String
  sz : Option Int
  en : Bool
  deriving Repr, DecidableEq

/-- Result bundle of `handleSet`: outcome plus the cfg, EEPROM, trigger
state and buzzer line after the call. -/
structure SetResult where
  outcome : SetOutcome
  cfg : AlarmSettings
  eeprom : AlarmSettings
  trig : TriggerState
  buzzer : Option Int
  deriving Repr, DecidableEq

/-- `handleSet()`: reject when a required argument is missing or a value
is out of range, mutating nothing; otherwise write the new
configuration, save it (crc recomputed), and force the trigger engine
idle (ringing, snoozeUntil and guard key cleared, buzzer silenced). -/
def handleSet (req : SetRequest) (cfg eeprom : AlarmSettings) (t : TriggerState)
    (bz : Option Int) : SetResult :=
  match req.h, req.m, req.ap, req.sz with
  | some h, some m, some ap, some sz =>
    if h < 1 ∨ h > 12 ∨ m < 0 ∨ m > 59 ∨ sz < 1 ∨ sz > 30 then
      { outcome := .invalidValues, cfg := cfg, eeprom := eeprom, trig := t, buzzer := bz }
    else
      let cfg1 : AlarmSettings :=
        { cfg with hour12 := h.toNat, minute := m.toNat,
                   am := if ap = "AM" then 1 else 0,
                   enabled := if req.en then 1 else 0, snoozeMin := sz.toNat }
      let saved := saveSettings cfg1
      { outcome := .saved, cfg := saved.1, eeprom := saved.2,
        trig := { alarmRinging := false, lastTriggerKey := -1, snoozeUntil := 0 },
        buzzer := none }
  | _, _, _, _ =>
      { outcome := .missingFields, cfg := cfg, eeprom := eeprom, trig := t, buzzer := bz }

/-- The warble core of `alarmSoundUpdate`: add `dir*120`, flip to
decreasing at or above 2500, then flip to increasing at or below 1200. -/
def warbleStep (freq dir : Int) : Int × Int :=
  let f := freq + dir * 120
  let d1 := if f ≥ 2500 then -1 else dir
  let d2 := if f ≤ 1200 then 1 else d1
  (f, d2)

/-- `alarmSoundUpdate()`: silence when not ringing; otherwise a 500ms
duty cycle (on below 350ms of phase), stepping the warble every
elapsed 60ms while on.  Returns the sound state and the buzzer line
(`some f` = tone at f, `none` = noTone; unchanged when no call made). -/
def alarmSoundUpdate (ringing : Bool) (snd : SoundState) (bz : Option Int)
    (nowMs : Nat) : SoundState × Option Int :=
  if ringing = false then (snd, none)
  else
    let patternMs := if snd.patternMs = 0 then nowMs else snd.patternMs
    let phase := (nowMs - patternMs) % 500
    if phase < 350 then
      if nowMs - snd.lastToneStepMs > 60 then
        let fd := warbleStep snd.toneFreq snd.toneDir
        ({ lastToneStepMs := nowMs, toneFreq := fd.1, toneDir := fd.2,
           patternMs := patternMs }, some fd.1)
      else ({ snd with patternMs := patternMs }, bz)
    else ({ snd with patternMs := patternMs }, none)

/-- The fields `drawOLED` hands to the display: the big time row (12h
hour, blinking colon, minute, AM flag; `none` while syncing), the alarm
status row, and the RING/SNZ badge. -/
structure DisplayFields where
  row1 : Option (Nat × Bool × Nat × Bool)
  alarmEnabled : Bool
  alarmHour12 : Nat
  alarmMinute : Nat
  alarmAM : Bool
  badge : Option String
  deriving Repr, DecidableEq

/-- `drawOLED()`: render time (or syncing), the alarm status line, and
the RING/SNZ badge.  When not ringing with a set snoozeUntil, synced,
and the deadline already passed, it zeroes `snoozeUntil` instead of
printing SNZ.  Returns the display fields and the trigger state after
the call. -/
def drawOLED (cfg : AlarmSettings) (t : TriggerState) (i : Instant) :
    DisplayFields × TriggerState :=
  let base : DisplayFields :=
    { row1 := if timeSynced i.epoch then
        some ((to12h i.hour).1, decide (i.sec % 2 = 0), i.min, (to12h i.hour).2)
      else none,
      alarmEnabled := cfg.enabled != 0, alarmHour12 := cfg.hour12,
      alarmMinute := cfg.minute, alarmAM := cfg.am != 0, badge := none }
  if t.alarmRinging then ({ base with badge := some "RING" }, t)
  else if t.snoozeUntil > 0 ∧ timeSynced i.epoch = true then
    if i.epoch < t.snoozeUntil then ({ base with badge := some "SNZ" }, t)
    else (base, { t with snoozeUntil := 0 })
  else (base, t)

/-! ## Settings store: load/save/validate -/

/-- Validity of a persisted record in the spec's words: every field in
its documented range (`enabled` a 0/1 bool included) and the stored
checksum equal to the checksum recomputed over the fields. -/
def specRecordValid (s : AlarmSettings) : Prop :=
  s.enabled ≤ 1 ∧ 1 ≤ s.hour12 ∧ s.hour12 ≤ 12 ∧ s.minute ≤ 59 ∧ s.am ≤ 1 ∧
  1 ≤ s.snoozeMin ∧ s.snoozeMin ≤ 30 ∧ s.crc = simpleCRC s

instance (s : AlarmSettings) : Decidable (specRecordValid s) := by
  unfold specRecordValid
  infer_instance

/-- A record whose only defect is `enabled = 2`, outside the documented
0/1 range, with a checksum that matches its fields. -/
def badEnabledRecord : AlarmSettings :=
  let base : AlarmSettings :=
    { enabled := 2, hour12 := 7, minute := 0, am := 1, snoozeMin := 5, crc := 0 }
  { base with crc := simpleCRC base }

/-- C7 counterexample: the claim says every invalid record (any field
out of range, or checksum mismatch) loads as the defaults, but
`loadSettings` never range-checks `enabled`: a record with `enabled = 2`
and a matching checksum is invalid per the claim yet is loaded and kept
as-is, not replaced by the defaults. -/
theorem C7_counterexample :
    ¬ specRecordValid badEnabledRecord ∧
    loadSettings badEnabledRecord = (badEnabledRecord, badEnabledRecord) ∧
    loadSettings badEnabledRecord ≠ (defaultSettings, defaultSettings) := by
  decide

/-- C7 (amended): for every persisted record with `hour12` outside
1..12, `minute` above 59, `am` outside 0/1, `snoozeMin` outside 1..30,
or a stored checksum differing from the one recomputed over the fields,
loading yields the fixed default configuration (disabled, 7:00 AM,
5-minute snooze) and re-persists it with a valid checksum; the
`enabled` field is not range-checked. -/
theorem C7_amended_load_defaults (stored : AlarmSettings)
    (h : stored.hour12 < 1 ∨ stored.hour12 > 12 ∨ stored.minute > 59 ∨
      (stored.am ≠ 0 ∧ stored.am ≠ 1) ∨ stored.snoozeMin < 1 ∨ stored.snoozeMin > 30 ∨
      stored.crc ≠ simpleCRC stored) :
    loadSettings stored = (defaultSettings, defaultSettings) ∧
    defaultSettings.enabled = 0 ∧ defaultSettings.hour12 = 7 ∧
    defaultSettings.minute = 0 ∧ defaultSettings.am = 1 ∧
    defaultSettings.snoozeMin = 5 ∧ defaultSettings.crc = simpleCRC defaultSettings := by
  refine ⟨?_, rfl, rfl, rfl, rfl, rfl, rfl⟩
  unfold loadSettings
  split_ifs with h1 h2
  · rfl
  · rfl
  · push_neg at h1
    obtain ⟨a1, a2, a3, a4, a5, a6⟩ := h1
    push_neg at h2
    rcases h with h | h | h | ⟨hb, hc⟩ | h | h | h <;> omega

/-- C7 amended witness: a record failing the hour range loads as the
defaults. -/
theorem C7_amended_witness :
    loadSettings { enabled := 0, hour12 := 13, minute := 0, am := 1, snoozeMin := 5, crc := 0 } =
      (defaultSettings, defaultSettings) ∧
    defaultSettings.enabled = 0 ∧ defaultSettings.hour12 = 7 ∧
    defaultSettings.minute = 0 ∧ defaultSettings.am = 1 ∧
    defaultSettings.snoozeMin = 5 ∧ defaultSettings.crc = simpleCRC defaultSettings :=
  C7_amended_load_defaults
    { enabled := 0, hour12 := 13, minute := 0, am := 1, snoozeMin := 5, crc := 0 }
    (by decide)

/-- C10: for every configuration whose fields are in range (hour12
1..12, minute 0..59, meridiem 0 or 1, snooze 1..30), saving (which
recomputes and stores the checksum) followed by loading yields exactly
the saved configuration — same field values, no fallback to the
defaults. -/
theorem C10_save_load_roundtrip (cfg : AlarmSettings)
    (h1 : 1 ≤ cfg.hour12) (h2 : cfg.hour12 ≤ 12) (h3 : cfg.minute ≤ 59)
    (h4 : cfg.am = 0 ∨ cfg.am = 1) (h5 : 1 ≤ cfg.snoozeMin) (h6 : cfg.snoozeMin ≤ 30) :
    loadSettings (saveSettings cfg).2 = ((saveSettings cfg).1, (saveSettings cfg).1) ∧
    (saveSettings cfg).1.enabled = cfg.enabled ∧
    (saveSettings cfg).1.hour12 = cfg.hour12 ∧
    (saveSettings cfg).1.minute = cfg.minute ∧
    (saveSettings cfg).1.am = cfg.am ∧
    (saveSettings cfg).1.snoozeMin = cfg.snoozeMin := by
  refine ⟨?_, rfl, rfl, rfl, rfl, rfl⟩
  unfold loadSettings saveSettings
  rw [if_neg, if_neg]
  · intro hcrc
    exact hcrc rfl
  · simp only
    push_neg
    refine ⟨by omega, by omega, by omega, ?_, by omega, by omega⟩
    intro ha
    rcases h4 with h4 | h4
    · exact absurd h4 ha
    · exact h4

/-- C10 witness: a concrete in-range configuration round-trips through
save and load unchanged. -/
theorem C10_save_load_roundtrip_witness :
    (let cfg : AlarmSettings :=
      { enabled := 1, hour12 := 11, minute := 45, am := 0, snoozeMin := 9, crc := 77 }
    loadSettings (saveSettings cfg).2 = ((saveSettings cfg).1, (saveSettings cfg).1) ∧
    (saveSettings cfg).1.enabled = cfg.enabled ∧
    (saveSettings cfg).1.hour12 = cfg.hour12 ∧
    (saveSettings cfg).1.minute = cfg.minute ∧
    (saveSettings cfg).1.am = cfg.am ∧
    (saveSettings cfg).1.snoozeMin = cfg.snoozeMin) :=
  C10_save_load_roundtrip
    { enabled := 1, hour12 := 11, minute := 45, am := 0, snoozeMin := 9, crc := 77 }
    (by decide) (by decide) (by decide) (by decide) (by decide) (by decide)

/-- C6: every `/set` request with a missing required field or an
out-of-range value (hour outside 1..12, minute outside 0..59, snooze
outside 1..30) is rejected with a validation error and mutates nothing;
every in-range request persists the new configuration (checksum
recomputed) and forces the trigger engine to Idle (ringing, snoozeUntil
and guard key cleared, buzzer silenced). -/
theorem C6_set_validation (req : SetRequest) (cfg eeprom : AlarmSettings)
    (t : TriggerState) (bz : Option Int) :
    ((req.h = none ∨ req.m = none ∨ req.ap = none ∨ req.sz = none) →
      handleSet req cfg eeprom t bz =
        { outcome := .missingFields, cfg := cfg, eeprom := eeprom, trig := t, buzzer := bz }) ∧
    (∀ hv mv apv szv, req.h = some hv → req.m = some mv → req.ap = some apv →
        req.sz = some szv →
      ((hv < 1 ∨ hv > 12 ∨ mv < 0 ∨ mv > 59 ∨ szv < 1 ∨ szv > 30) →
        handleSet req cfg eeprom t bz =
          { outcome := .invalidValues, cfg := cfg, eeprom := eeprom, trig := t, buzzer := bz }) ∧
      (1 ≤ hv → hv ≤ 12 → 0 ≤ mv → mv ≤ 59 → 1 ≤ szv → szv ≤ 30 →
        ∃ newCfg : AlarmSettings,
          handleSet req cfg eeprom t bz =
            { outcome := .saved, cfg := newCfg, eeprom := newCfg,
              trig := { alarmRinging := false, lastTriggerKey := -1, snoozeUntil := 0 },
              buzzer := none } ∧
          newCfg.enabled = (if req.en then 1 else 0) ∧ newCfg.hour12 = hv.toNat ∧
          newCfg.minute = mv.toNat ∧ newCfg.am = (if apv = "AM" then 1 else 0) ∧
          newCfg.snoozeMin = szv.toNat ∧ newCfg.crc = simpleCRC newCfg)) := by
  obtain ⟨rh, rm, rap, rsz, ren⟩ := req
  constructor
  · intro hmiss
    cases rh <;> cases rm <;> cases rap <;> cases rsz <;> simp_all [handleSet]
  · intro hv mv apv szv e1 e2 e3 e4
    simp only at e1 e2 e3 e4
    subst e1; subst e2; subst e3; subst e4
    constructor
    · intro hbad
      simp only [handleSet]
      rw [if_pos hbad]
    · intro b1 b2 b3 b4 b5 b6
      simp only [handleSet]
      rw [if_neg (by omega)]
      exact ⟨_, rfl, rfl, rfl, rfl, rfl, rfl, rfl⟩

/-- C6 witness: a concrete in-range request is saved, persisted with a
valid checksum, and resets the trigger engine to Idle. -/
theorem C6_set_validation_witness :
    ∃ newCfg : AlarmSettings,
      handleSet { h := some 8, m := some 30, ap := some "PM", sz := some 10, en := true }
          defaultSettings defaultSettings
          { alarmRinging := true, lastTriggerKey := 5, snoozeUntil := 0 } (some 1500) =
        { outcome := .saved, cfg := newCfg, eeprom := newCfg,
          trig := { alarmRinging := false, lastTriggerKey := -1, snoozeUntil := 0 },
          buzzer := none } ∧
      newCfg.enabled = (if true then 1 else 0) ∧ newCfg.hour12 = (8 : Int).toNat ∧
      newCfg.minute = (30 : Int).toNat ∧ newCfg.am = (if "PM" = "AM" then 1 else 0) ∧
      newCfg.snoozeMin = (10 : Int).toNat ∧ newCfg.crc = simpleCRC newCfg :=
  ((C6_set_validation
      { h := some 8, m := some 30, ap := some "PM", sz := some 10, en := true }
      defaultSettings defaultSettings
      { alarmRinging := true, lastTriggerKey := 5, snoozeUntil := 0 } (some 1500)).2
    8 30 "PM" 10 rfl rfl rfl rfl).2
    (by decide) (by decide) (by decide) (by decide) (by decide) (by decide)

/-! ## Snooze / stop handlers -/

/-- C3 counterexample: the claim says a valid snooze does not clear
`lastFiredKey`, but `handleSnooze` unconditionally sets
`lastTriggerKey = -1`: from a ringing, time-synced state with key 420
the key after snoozing is -1, not 420. -/
theorem C3_counterexample :
    (handleSnooze defaultSettings
        { alarmRinging := true, lastTriggerKey := 420, snoozeUntil := 0 }
        1700000600).1.lastTriggerKey = -1 ∧
    ((handleSnooze defaultSettings
        { alarmRinging := true, lastTriggerKey := 420, snoozeUntil := 0 }
        1700000600).1.lastTriggerKey ≠ (420 : Int)) ∧
    timeSynced 1700000600 = true := by
  decide

/-- C3 (amended): in every ringing, time-synced state the snooze
operation sets `snoozeUntil = now + snoozeMinutes*60`, clears ringing,
silences the buzzer, and also clears `lastFiredKey` to -1 (the claim's
"does not clear lastFiredKey" does not hold). -/
theorem C3_amended_snooze_valid (cfg : AlarmSettings) (t : TriggerState) (now : Nat)
    (hr : t.alarmRinging = true) (hs : timeSynced now = true) :
    handleSnooze cfg t now =
      ({ alarmRinging := false, lastTriggerKey := -1,
         snoozeUntil := now + cfg.snoozeMin * 60 }, none) := by
  unfold handleSnooze
  rw [hr, hs]
  rfl

/-- C3 amended witness: concrete ringing synced state. -/
theorem C3_amended_witness :
    handleSnooze defaultSettings
        { alarmRinging := true, lastTriggerKey := 420, snoozeUntil := 0 } 1700000600 =
      ({ alarmRinging := false, lastTriggerKey := -1,
         snoozeUntil := 1700000600 + defaultSettings.snoozeMin * 60 }, none) :=
  C3_amended_snooze_valid defaultSettings
    { alarmRinging := true, lastTriggerKey := 420, snoozeUntil := 0 } 1700000600
    rfl (by decide)

/-- C4 counterexample: the claim says an invalid snooze yields exactly
the state Stop would yield, but from a non-ringing state with
`snoozeUntil = 1700001000` pending, Snooze leaves `snoozeUntil` set
while Stop clears it, so the two results differ. -/
theorem C4_counterexample :
    (handleSnooze defaultSettings
        { alarmRinging := false, lastTriggerKey := 7, snoozeUntil := 1700001000 }
        1700000500).1 ≠
      (handleStop
        { alarmRinging := false, lastTriggerKey := 7, snoozeUntil := 1700001000 }).1 ∧
    (handleSnooze defaultSettings
        { alarmRinging := false, lastTriggerKey := 7, snoozeUntil := 1700001000 }
        1700000500).1.snoozeUntil = 1700001000 := by
  decide

/-- C4 (amended): when not ringing or time not trustworthy, Snooze
clears ringing, silences the buzzer and clears the guard key, but
leaves `snoozeUntil` untouched; its result coincides with Stop's
exactly when `snoozeUntil` was already 0. -/
theorem C4_amended_snooze_invalid (cfg : AlarmSettings) (t : TriggerState) (now : Nat)
    (h : t.alarmRinging = false ∨ timeSynced now = false) :
    handleSnooze cfg t now =
      ({ alarmRinging := false, lastTriggerKey := -1, snoozeUntil := t.snoozeUntil },
       none) ∧
    (handleSnooze cfg t now = handleStop t ↔ t.snoozeUntil = 0) := by
  have hb : (t.alarmRinging && timeSynced now) = false := by
    rcases h with h | h <;> simp [h]
  have he : handleSnooze cfg t now =
      ({ alarmRinging := false, lastTriggerKey := -1, snoozeUntil := t.snoozeUntil },
       none) := by
    unfold handleSnooze
    rw [hb]
    rfl
  refine ⟨he, ?_⟩
  rw [he]
  unfold handleStop
  constructor
  · intro heq
    have := congrArg (fun p => p.1.snoozeUntil) heq
    simpa using this
  · intro h0
    rw [h0]

/-- C4 amended witness: from an untrusted-time ringing state with no
pending snooze, Snooze coincides with Stop. -/
theorem C4_amended_witness :
    handleSnooze defaultSettings
        { alarmRinging := true, lastTriggerKey := 3, snoozeUntil := 0 } 12 =
      ({ alarmRinging := false, lastTriggerKey := -1, snoozeUntil := 0 }, none) ∧
    (handleSnooze defaultSettings
        { alarmRinging := true, lastTriggerKey := 3, snoozeUntil := 0 } 12 =
      handleStop { alarmRinging := true, lastTriggerKey := 3, snoozeUntil := 0 } ↔
        (0 : Nat) = 0) :=
  C4_amended_snooze_invalid defaultSettings
    { alarmRinging := true, lastTriggerKey := 3, snoozeUntil := 0 } 12
    (Or.inr (by decide))

/-! ## Trigger engine tick -/

/-- C2 counterexample: the claim says the snooze-expiry re-ring resets
the sound generator to (1200 Hz, up), but `updateAlarmLogic` leaves the
sound state untouched on that transition: with `toneFreq = 2040`,
`toneDir = -1` before the re-ring, both survive it. -/
theorem C2_counterexample :
    (updateAlarmLogic
        { enabled := 1, hour12 := 7, minute := 0, am := 1, snoozeMin := 5, crc := 0 }
        { alarmRinging := false, lastTriggerKey := -1, snoozeUntil := 1700000500 }
        { lastToneStepMs := 40, toneFreq := 2040, toneDir := -1, patternMs := 3 }
        { epoch := 1700000600, hour := 6, min := 55, sec := 10, yday := 5 }).1.alarmRinging
      = true ∧
    ¬((updateAlarmLogic
        { enabled := 1, hour12 := 7, minute := 0, am := 1, snoozeMin := 5, crc := 0 }
        { alarmRinging := false, lastTriggerKey := -1, snoozeUntil := 1700000500 }
        { lastToneStepMs := 40, toneFreq := 2040, toneDir := -1, patternMs := 3 }
        { epoch := 1700000600, hour := 6, min := 55, sec := 10, yday := 5 }).2.toneFreq
          = 1200 ∧
      (updateAlarmLogic
        { enabled := 1, hour12 := 7, minute := 0, am := 1, snoozeMin := 5, crc := 0 }
        { alarmRinging := false, lastTriggerKey := -1, snoozeUntil := 1700000500 }
        { lastToneStepMs := 40, toneFreq := 2040, toneDir := -1, patternMs := 3 }
        { epoch := 1700000600, hour := 6, min := 55, sec := 10, yday := 5 }).2.toneDir
          = 1) := by
  decide

/-- C2 (amended): on every engine tick in the Snoozed state with the
alarm enabled and time trustworthy, if current time >= snoozeUntil the
engine transitions to Ringing, clearing `snoozeUntil` (so the
transition cannot repeat) and clearing `lastFiredKey`; the sound
generator state is left unchanged, not reset to (1200 Hz, up). -/
theorem C2_amended_snooze_rering (cfg : AlarmSettings) (t : TriggerState)
    (snd : SoundState) (i : Instant) (hen : cfg.enabled ≠ 0)
    (hs : timeSynced i.epoch = true) (hsu : t.snoozeUntil > 0)
    (hel : t.snoozeUntil ≤ i.epoch) :
    updateAlarmLogic cfg t snd i =
      ({ alarmRinging := true, lastTriggerKey := -1, snoozeUntil := 0 }, snd) := by
  unfold updateAlarmLogic
  rw [if_neg hen, if_neg (by simp [hs]), if_pos hsu, if_pos hel]

/-- C2 amended witness: concrete expired snooze re-rings with the sound
state untouched. -/
theorem C2_amended_witness :
    updateAlarmLogic
        { enabled := 1, hour12 := 7, minute := 0, am := 1, snoozeMin := 5, crc := 0 }
        { alarmRinging := false, lastTriggerKey := -1, snoozeUntil := 1700000500 }
        { lastToneStepMs := 40, toneFreq := 2040, toneDir := -1, patternMs := 3 }
        { epoch := 1700000600, hour := 6, min := 55, sec := 10, yday := 5 } =
      ({ alarmRinging := true, lastTriggerKey := -1, snoozeUntil := 0 },
       { lastToneStepMs := 40, toneFreq := 2040, toneDir := -1, patternMs := 3 }) :=
  C2_amended_snooze_rering
    { enabled := 1, hour12 := 7, minute := 0, am := 1, snoozeMin := 5, crc := 0 }
    { alarmRinging := false, lastTriggerKey := -1, snoozeUntil := 1700000500 }
    { lastToneStepMs := 40, toneFreq := 2040, toneDir := -1, patternMs := 3 }
    { epoch := 1700000600, hour := 6, min := 55, sec := 10, yday := 5 }
    (by decide) (by decide) (by decide) (by decide)

/-! ## Display presenter -/

/-- C9 counterexample: the claim says the display step leaves every
TriggerState field unchanged, but with an elapsed snooze deadline and
time synced, `drawOLED` zeroes `snoozeUntil`. -/
theorem C9_counterexample :
    (drawOLED defaultSettings
        { alarmRinging := false, lastTriggerKey := 9, snoozeUntil := 1700000100 }
        { epoch := 1700000200, hour := 7, min := 3, sec := 20, yday := 5 }).2 ≠
      { alarmRinging := false, lastTriggerKey := 9, snoozeUntil := 1700000100 } ∧
    (drawOLED defaultSettings
        { alarmRinging := false, lastTriggerKey := 9, snoozeUntil := 1700000100 }
        { epoch := 1700000200, hour := 7, min := 3, sec := 20, yday := 5 }).2.snoozeUntil
      = 0 := by
  decide

/-- C9 (amended): the display step reads the configuration and trigger
state and leaves ringing, the guard key and the configuration
unchanged, but it zeroes `snoozeUntil` when not ringing, a snooze
deadline is set, time is synced and the deadline has already passed;
in every other case `snoozeUntil` is also unchanged. -/
theorem C9_amended_draw_frame (cfg : AlarmSettings) (t : TriggerState) (i : Instant) :
    (drawOLED cfg t i).2.alarmRinging = t.alarmRinging ∧
    (drawOLED cfg t i).2.lastTriggerKey = t.lastTriggerKey ∧
    (drawOLED cfg t i).2.snoozeUntil =
      (if t.alarmRinging = false ∧ t.snoozeUntil > 0 ∧ timeSynced i.epoch = true ∧
          t.snoozeUntil ≤ i.epoch then 0 else t.snoozeUntil) := by
  unfold drawOLED
  split_ifs with h1 h2 h3 <;> simp_all
  omega

/-! ## Sound pattern generator -/

/-- Sound sweep states reachable from the fresh-ring start (1200 Hz,
direction up) by repeated warble steps. -/
inductive WarbleReachable : Int × Int → Prop where
  | init : WarbleReachable (1200, 1)
  | step (s : Int × Int) : WarbleReachable s → WarbleReachable (warbleStep s.1 s.2)

/-- Inductive invariant of the warble sweep: the frequency is a
multiple of 120 and sits in [1200, 2400] while sweeping up, in
[1320, 2520] while sweeping down. -/
theorem warble_invariant (s : Int × Int) (h : WarbleReachable s) :
    (120 : Int) ∣ s.1 ∧
    ((s.2 = 1 ∧ 1200 ≤ s.1 ∧ s.1 ≤ 2400) ∨ (s.2 = -1 ∧ 1320 ≤ s.1 ∧ s.1 ≤ 2520)) := by
  induction h with
  | init => exact ⟨⟨10, by norm_num⟩, Or.inl ⟨rfl, by norm_num, by norm_num⟩⟩
  | step s hs ih =>
    obtain ⟨hdvd, hcase⟩ := ih
    obtain ⟨f, d⟩ := s
    simp only at hdvd hcase
    simp only [warbleStep]
    rcases hcase with ⟨hd, hlo, hhi⟩ | ⟨hd, hlo, hhi⟩ <;> subst hd <;>
      split_ifs <;> constructor <;> simp_all <;> omega

/-- C5 counterexample: starting a fresh ring at (1200 Hz, up) and
running `alarmSoundUpdate` eleven times at 500ms spacing inside the
"on" phase, the buzzer is driven at 2520 Hz — the emitted frequency
does leave the claimed interval [1200, 2500]. -/
theorem C5_counterexample :
    (([500, 1000, 1500, 2000, 2500, 3000, 3500, 4000, 4500, 5000, 5500] :
        List Nat).foldl
      (fun sb t => alarmSoundUpdate true sb.1 sb.2 t)
      ({ lastToneStepMs := 0, toneFreq := 1200, toneDir := 1, patternMs := 0 },
       none)).2 = some 2520 ∧
    ¬((2520 : Int) ≤ 2500) := by
  decide

/-- C5 (amended): every warble state reachable from a fresh ring keeps
the frequency in [1200, 2520] Hz (the upward sweep overshoots 2500 to
2520 before reversing); the sweep direction flips only when the
stepped frequency is at a boundary (2520 or 1200), never mid-range,
and the two flip guards of a single step can never both hold, so the
direction never flips twice in one sample step. -/
theorem C5_amended_warble_bounds (s : Int × Int) (h : WarbleReachable s) :
    1200 ≤ s.1 ∧ s.1 ≤ 2520 ∧
    ((warbleStep s.1 s.2).2 ≠ s.2 →
      (warbleStep s.1 s.2).1 = 2520 ∨ (warbleStep s.1 s.2).1 = 1200) ∧
    ¬(2500 ≤ s.1 + s.2 * 120 ∧ s.1 + s.2 * 120 ≤ 1200) := by
  obtain ⟨hdvd, hcase⟩ := warble_invariant s h
  obtain ⟨f, d⟩ := s
  simp only at hdvd hcase ⊢
  simp only [warbleStep]
  rcases hcase with ⟨hd, hlo, hhi⟩ | ⟨hd, hlo, hhi⟩ <;> subst hd <;>
    split_ifs <;> refine ⟨by omega, by omega, ?_, by omega⟩ <;> simp_all <;> omega

/-- C5 amended witness: the fresh-ring start state satisfies the
bounds and flip discipline. -/
theorem C5_amended_witness :
    1200 ≤ ((1200 : Int), (1 : Int)).1 ∧ ((1200 : Int), (1 : Int)).1 ≤ 2520 ∧
    ((warbleStep ((1200 : Int), (1 : Int)).1 ((1200 : Int), (1 : Int)).2).2 ≠
        ((1200 : Int), (1 : Int)).2 →
      (warbleStep ((1200 : Int), (1 : Int)).1 ((1200 : Int), (1 : Int)).2).1 = 2520 ∨
      (warbleStep ((1200 : Int), (1 : Int)).1 ((1200 : Int), (1 : Int)).2).1 = 1200) ∧
    ¬(2500 ≤ ((1200 : Int), (1 : Int)).1 + ((1200 : Int), (1 : Int)).2 * 120 ∧
      ((1200 : Int), (1 : Int)).1 + ((1200 : Int), (1 : Int)).2 * 120 ≤ 1200) :=
  C5_amended_warble_bounds (1200, 1) WarbleReachable.init

/-! ## Once-per-minute firing -/

/-- One engine tick on the paired trigger/sound state. -/
def engineTick (cfg : AlarmSettings) (s : TriggerState × SoundState) (i : Instant) :
    TriggerState × SoundState :=
  updateAlarmLogic cfg s.1 s.2 i

/-- Number of Idle-to-Ringing transitions (ringing false before a tick,
true after it) along a sequence of engine ticks. -/
def countFires (cfg : AlarmSettings) :
    TriggerState × SoundState → List Instant → Nat
  | _, [] => 0
  | s, i :: is =>
    (if s.1.alarmRinging = false ∧ (engineTick cfg s i).1.alarmRinging = true then 1
     else 0) + countFires cfg (engineTick cfg s i) is

/-- An engine tick never clears ringing: ringing survives every tick. -/
theorem ringing_persists (cfg : AlarmSettings) (t : TriggerState) (snd : SoundState)
    (i : Instant) (h : t.alarmRinging = true) :
    (updateAlarmLogic cfg t snd i).1.alarmRinging = true := by
  unfold updateAlarmLogic
  split_ifs <;> simp_all

/-- No Idle-to-Ringing transition can occur along ticks that start from
an already-ringing state. -/
theorem countFires_of_ringing (cfg : AlarmSettings) (s : TriggerState × SoundState)
    (is : List Instant) (h : s.1.alarmRinging = true) :
    countFires cfg s is = 0 := by
  induction is generalizing s with
  | nil => rfl
  | cons i is ih =>
    have hp : (engineTick cfg s i).1.alarmRinging = true :=
      ringing_persists cfg s.1 s.2 i h
    unfold countFires
    rw [if_neg (by simp [h]), ih _ hp]

/-- A tick at the configured minute's second 0, enabled, synced, no
snooze pending, not ringing, guard key different: the engine fires. -/
theorem fires_first (cfg : AlarmSettings) (t : TriggerState) (snd : SoundState)
    (i : Instant) (hen : cfg.enabled ≠ 0) (hs : timeSynced i.epoch = true)
    (hsu : t.snoozeUntil = 0) (hh : i.hour = alarmHour24 cfg)
    (hm : i.min = cfg.minute) (hsec : i.sec = 0) (hr : t.alarmRinging = false)
    (hk : minuteKey i.yday i.hour i.min ≠ t.lastTriggerKey) :
    (updateAlarmLogic cfg t snd i).1.alarmRinging = true := by
  unfold updateAlarmLogic
  rw [if_neg hen, if_neg (by simp [hs]), if_neg (by omega),
    if_pos ⟨hh, hm, hsec, hr⟩, if_pos hk]

/-- C1: for every tick sequence inside one calendar minute that matches
the configured alarm time, with the alarm enabled, time trustworthy,
no active snooze, the engine idle, and the minute's guard key not yet
recorded, where the first tick lands on second 0: exactly one
Idle-to-Ringing transition occurs; subsequent ticks of the same minute
do not fire again. -/
theorem C1_once_per_minute (cfg : AlarmSettings) (t0 : TriggerState)
    (snd0 : SoundState) (d : Nat) (i0 : Instant) (rest : List Instant)
    (hen : cfg.enabled ≠ 0)
    (hall : ∀ i ∈ i0 :: rest, timeSynced i.epoch = true ∧ i.yday = d ∧
      i.hour = alarmHour24 cfg ∧ i.min = cfg.minute)
    (hsec : i0.sec = 0) (hr : t0.alarmRinging = false) (hsu : t0.snoozeUntil = 0)
    (hk : t0.lastTriggerKey ≠ minuteKey d (alarmHour24 cfg) cfg.minute) :
    countFires cfg (t0, snd0) (i0 :: rest) = 1 := by
  obtain ⟨hs0, hy0, hh0, hm0⟩ := hall i0 (List.mem_cons_self _ _)
  have hkey : minuteKey i0.yday i0.hour i0.min ≠ t0.lastTriggerKey := by
    rw [hy0, hh0, hm0]
    exact fun he => hk he.symm
  have hfire : (engineTick cfg (t0, snd0) i0).1.alarmRinging = true :=
    fires_first cfg t0 snd0 i0 hen hs0 hsu hh0 hm0 hsec hr hkey
  unfold countFires
  rw [if_pos ⟨hr, hfire⟩, countFires_of_ringing cfg _ rest hfire]

/-- C1 witness: three concrete ticks across one matching minute produce
exactly one fire. -/
theorem C1_once_per_minute_witness :
    countFires { enabled := 1, hour12 := 7, minute := 0, am := 1, snoozeMin := 5, crc := 0 }
      ({ alarmRinging := false, lastTriggerKey := -1, snoozeUntil := 0 },
       { lastToneStepMs := 0, toneFreq := 1200, toneDir := 1, patternMs := 0 })
      [{ epoch := 1700000001, hour := 7, min := 0, sec := 0, yday := 5 },
       { epoch := 1700000002, hour := 7, min := 0, sec := 1, yday := 5 },
       { epoch := 1700000003, hour := 7, min := 0, sec := 2, yday := 5 }] = 1 :=
  C1_once_per_minute
    { enabled := 1, hour12 := 7, minute := 0, am := 1, snoozeMin := 5, crc := 0 }
    { alarmRinging := false, lastTriggerKey := -1, snoozeUntil := 0 }
    { lastToneStepMs := 0, toneFreq := 1200, toneDir := 1, patternMs := 0 }
    5
    { epoch := 1700000001, hour := 7, min := 0, sec := 0, yday := 5 }
    [{ epoch := 1700000002, hour := 7, min := 0, sec := 1, yday := 5 },
     { epoch := 1700000003, hour := 7, min := 0, sec := 2, yday := 5 }]
    (by decide) (by decide) (by decide) (by decide) (by decide) (by decide)

/-! ## System-level mutual exclusion of ringing and snooze -/

/-- The operations that touch the trigger state: an engine tick and the
stop, snooze and set request handlers, each carrying the external
inputs it reads. -/
inductive Op where
  | tick (i : Instant)
  | stop
  | snooze (now : Nat)
  | set (req : SetRequest)

/-- The shared mutable state the loop and the handlers touch. -/
structure Sys where
  cfg : AlarmSettings
  eeprom : AlarmSettings
  trig : TriggerState
  snd : SoundState
  buzzer : Option Int

/-- Apply one operation to the shared state. -/
def applyOp (s : Sys) : Op → Sys
  | .tick i =>
    let r := updateAlarmLogic s.cfg s.trig s.snd i
    { s with trig := r.1, snd := r.2 }
  | .stop =>
    let r := handleStop s.trig
    { s with trig := r.1, buzzer := r.2 }
  | .snooze now =>
    let r := handleSnooze s.cfg s.trig now
    { s with trig := r.1, buzzer := r.2 }
  | .set req =>
    let r := handleSet req s.cfg s.eeprom s.trig s.buzzer
    { cfg := r.cfg, eeprom := r.eeprom, trig := r.trig, snd := s.snd,
      buzzer := r.buzzer }

/-- Start-up state: settings loaded from the stored record, trigger
state at its global initialisers (not ringing, key -1, no snooze). -/
def initSys (stored : AlarmSettings) : Sys :=
  { cfg := (loadSettings stored).1, eeprom := (loadSettings stored).2,
    trig := { alarmRinging := false, lastTriggerKey := -1, snoozeUntil := 0 },
    snd := { lastToneStepMs := 0, toneFreq := 1200, toneDir := 1, patternMs := 0 },
    buzzer := none }

/-- Run a sequence of operations. -/
def runOps (s : Sys) (ops : List Op) : Sys :=
  ops.foldl applyOp s

/-- Every single operation preserves "ringing implies snoozeUntil is
cleared". -/
theorem ring_excl_step (s : Sys) (op : Op)
    (ih : s.trig.alarmRinging = true → s.trig.snoozeUntil = 0) :
    (applyOp s op).trig.alarmRinging = true → (applyOp s op).trig.snoozeUntil = 0 := by
  cases op with
  | tick i =>
    simp only [applyOp]
    unfold updateAlarmLogic
    split_ifs with e1 e2 e3 e4 e5 <;> intro hr
    · exact ih hr
    · exact ih hr
    · rfl
    · exact ih hr
    · dsimp only at hr ⊢
      split <;> (show s.trig.snoozeUntil = 0; omega)
    · exact ih hr
  | stop => intro _; rfl
  | snooze now => simp [applyOp, handleSnooze]
  | set req =>
    obtain ⟨rh, rm, rap, rsz, ren⟩ := req
    cases rh <;> cases rm <;> cases rap <;> cases rsz <;>
      simp only [applyOp, handleSet] <;> try exact ih
    split_ifs <;> first | exact ih | simp

/-- The exclusion invariant holds after any operation sequence from
start-up. -/
theorem ring_excl_run (stored : AlarmSettings) (ops : List Op) :
    (runOps (initSys stored) ops).trig.alarmRinging = true →
    (runOps (initSys stored) ops).trig.snoozeUntil = 0 := by
  suffices h : ∀ s : Sys, (s.trig.alarmRinging = true → s.trig.snoozeUntil = 0) →
      ((runOps s ops).trig.alarmRinging = true →
        (runOps s ops).trig.snoozeUntil = 0) by
    exact h (initSys stored) (fun _ => rfl)
  intro s
  induction ops generalizing s with
  | nil => exact fun h => h
  | cons op ops ih => exact fun hs => ih (applyOp s op) (ring_excl_step s op hs)

/-- C8: in every state reachable from start-up by engine ticks, Stop,
Snooze and ApplyConfiguration operations, ringing excludes an active
snooze deadline: when ringing, `snoozeUntil` is 0, hence no unelapsed
snooze deadline exists at any instant. -/
theorem C8_ring_snooze_exclusive (stored : AlarmSettings) (ops : List Op) (now : Nat)
    (hr : (runOps (initSys stored) ops).trig.alarmRinging = true) :
    ¬((runOps (initSys stored) ops).trig.snoozeUntil ≠ 0 ∧
      now < (runOps (initSys stored) ops).trig.snoozeUntil) := by
  have h0 := ring_excl_run stored ops hr
  simp [h0]

/-- The stored record used by the C8 witness: enabled, 7:00 AM, snooze
5, checksum valid. -/
def c8Record : AlarmSettings :=
  let base : AlarmSettings :=
    { enabled := 1, hour12 := 7, minute := 0, am := 1, snoozeMin := 5, crc := 0 }
  { base with crc := simpleCRC base }

/-- C8 witness: after booting from a valid enabled record and one
firing tick the engine is ringing and no active snooze deadline
exists. -/
theorem C8_witness :
    ¬((runOps (initSys c8Record)
        [Op.tick { epoch := 1700000001, hour := 7, min := 0, sec := 0, yday := 5 }]
      ).trig.snoozeUntil ≠ 0 ∧
      0 < (runOps (initSys c8Record)
        [Op.tick { epoch := 1700000001, hour := 7, min := 0, sec := 0, yday := 5 }]
      ).trig.snoozeUntil) :=
  C8_ring_snooze_exclusive c8Record
    [Op.tick { epoch := 1700000001, hour := 7, min := 0, sec := 0, yday := 5 }] 0
    (by decide)

end WakeSync
